import Mathlib

/-!
Shallow embedding of the Quant trading-dashboard frontend.

The repository is a React single-page application.  The two components with
actual logic are the price ticker (`PriceTicker`, polling
`/api/price/BTC/USDT` every 2000 ms) and the leaderboard (`Leaderboard`,
polling `/api/leaderboard` every 5000 ms).  Each keeps its state in React
`useState` hooks; the fetch handlers update that state.

Modelling conventions:
* JavaScript numbers are modelled as exact rationals `ℚ` (the quantities the
  claims mention are exact at the precision involved).
* React's batched `useState` semantics: every setter call inside one handler
  reads the pre-handler state, so a handler is a pure function on the
  component state record.
* JS truthiness on numbers: `0` is falsy, which matters for
  `priceData?.price || null` and for the guards `priceData && previousPrice`.
* `Number.prototype.toFixed(2)` per the ECMAScript specification: split off
  the sign, then pick the integer count of hundredths closest to the
  absolute value, ties to the larger integer.
-/

/-- Payload of `GET /api/price/BTC/USDT` (interface `PriceData`). -/
structure PriceData where
  symbol : String
  price : ℚ
  bid : ℚ
  ask : ℚ
  high : ℚ
  low : ℚ
  volume : ℚ
  timestamp : ℤ
deriving Repr, DecidableEq

/-- The four `useState` hooks of `PriceTicker`:
`priceData`, `previousPrice`, `loading`, `error`. -/
structure TickerState where
  priceData : Option PriceData
  previousPrice : Option ℚ
  loading : Bool
  error : Option String
deriving Repr, DecidableEq

/-- Initial hook values: `useState<PriceData | null>(null)`,
`useState<number | null>(null)`, `useState(true)`, `useState<string | null>(null)`. -/
def TickerState.init : TickerState :=
  { priceData := none, previousPrice := none, loading := true, error := none }

/-- The expression `priceData?.price || null`: optional chaining yields
`undefined` when `priceData` is `null`, and `||` coalesces every falsy value
(including the number `0`) to `null`. -/
def priceOrNull (pd : Option PriceData) : Option ℚ :=
  match pd with
  | none => none
  | some d => if d.price = 0 then none else some d.price

/-- The `try` branch of `fetchPrice`:
`setPreviousPrice(priceData?.price || null); setPriceData(response.data);
setLoading(false); setError(null)`. -/
def fetchPriceSuccess (s : TickerState) (resp : PriceData) : TickerState :=
  { s with
    previousPrice := priceOrNull s.priceData
    priceData := some resp
    loading := false
    error := none }

/-- The `catch` branch of `fetchPrice`:
`setError('Failed to fetch price data'); setLoading(false)`.  The caught
error `e` is only logged, never inspected. -/
def fetchPriceFailure (s : TickerState) (e : String) : TickerState :=
  { s with
    error := some "Failed to fetch price data"
    loading := false }

/-- Applying a sequence of successful fetches in order (no overlap: each
response is applied against the state left by the previous one). -/
def runSuccesses (s : TickerState) : List PriceData → TickerState
  | [] => s
  | r :: rs => runSuccesses (fetchPriceSuccess s r) rs

/-- `const priceChange = priceData && previousPrice ? priceData.price - previousPrice : 0`.
Both `null` and the number `0` are falsy, so the guard also fails when
`previousPrice` is `0`. -/
def priceChange (pd : Option PriceData) (prev : Option ℚ) : ℚ :=
  match pd, prev with
  | some d, some p => if p = 0 then 0 else d.price - p
  | _, _ => 0

/-- Two-digit decimal rendering of `n < 100`. -/
def pad2 (n : ℕ) : String :=
  if n < 10 then "0" ++ toString n else toString n

/-- ECMAScript `Number.prototype.toFixed(2)` on an exact rational: if the
value is negative, prepend a minus sign and continue with the absolute
value; pick the integer `n` with `n / 100` closest to the value, ties going
to the larger `n` (i.e. `n = ⌊100·|x| + 1/2⌋`); render `n` with a decimal
point before the last two digits. -/
def toFixed2 (x : ℚ) : String :=
  (if x < 0 then "-" else "") ++
    toString ((⌊|x| * 100 + 1/2⌋).toNat / 100) ++ "." ++
    pad2 ((⌊|x| * 100 + 1/2⌋).toNat % 100)

/-- `const priceChangePercent = priceData && previousPrice ?
((priceChange / previousPrice) * 100).toFixed(2) : '0.00'`. -/
def priceChangePercent (pd : Option PriceData) (prev : Option ℚ) : String :=
  match pd, prev with
  | some d, some p =>
      if p = 0 then "0.00" else toFixed2 ((d.price - p) / p * 100)
  | _, _ => "0.00"

/-- `const isPositive = priceChange >= 0`. -/
def isPositive (pd : Option PriceData) (prev : Option ℚ) : Bool :=
  decide (0 ≤ priceChange pd prev)

/-- The delta indicator block (trend arrow plus percentage) is rendered iff
the JSX guards `priceData && (...)` and `previousPrice !== null && (...)`
both pass. -/
def showsDeltaIndicator (s : TickerState) : Bool :=
  s.priceData.isSome && s.previousPrice.isSome

/-- Entry of `top_traders` (interface `Trader`). -/
structure Trader where
  trader_id : String
  name : String
  roi : ℚ
  portfolio_value : ℚ
deriving Repr, DecidableEq

/-- Payload of `GET /api/leaderboard` (interface `LeaderboardResponse`). -/
structure LeaderboardResponse where
  top_traders : List Trader
  count : ℕ
deriving Repr, DecidableEq

/-- The three `useState` hooks of `Leaderboard`: `traders`, `loading`, `error`. -/
structure LeaderboardState where
  traders : List Trader
  loading : Bool
  error : Option String
deriving Repr, DecidableEq

/-- Initial hook values: `useState<Trader[]>([])`, `useState(true)`,
`useState<string | null>(null)`. -/
def LeaderboardState.init : LeaderboardState :=
  { traders := [], loading := true, error := none }

/-- The `try` branch of `fetchLeaderboard`:
`setTraders(response.data.top_traders); setLoading(false); setError(null)`. -/
def fetchLeaderboardSuccess (s : LeaderboardState) (resp : LeaderboardResponse) :
    LeaderboardState :=
  { s with
    traders := resp.top_traders
    loading := false
    error := none }

/-- The `catch` branch of `fetchLeaderboard`:
`setError('Failed to fetch leaderboard'); setLoading(false)`. -/
def fetchLeaderboardFailure (s : LeaderboardState) (e : String) : LeaderboardState :=
  { s with
    error := some "Failed to fetch leaderboard"
    loading := false }

/-- A rank badge is either a trophy icon of a given colour class or a plain
text label. -/
inductive RankBadge where
  | trophy (color : String)
  | text (label : String)
deriving Repr, DecidableEq

/-- `getRankIcon` from `Leaderboard.tsx`: indices 0, 1, 2 yield trophy icons
coloured `text-yellow-400`, `text-slate-400`, `text-amber-600`; every other
index yields the text span `#` followed by `index + 1`. -/
def getRankIcon (index : ℕ) : RankBadge :=
  match index with
  | 0 => RankBadge.trophy "text-yellow-400"
  | 1 => RankBadge.trophy "text-slate-400"
  | 2 => RankBadge.trophy "text-amber-600"
  | _ => RankBadge.text ("#" ++ toString (index + 1))

/-- The rendered leaderboard rows: `traders.map((trader, index) => ...)`,
one row per trader in list order, each carrying `getRankIcon(index)`. -/
def renderedRows (s : LeaderboardState) : List (RankBadge × Trader) :=
  s.traders.mapIdx fun index trader => (getRankIcon index, trader)

/-- Outcome of one `axios.get` call as seen by `fetchPrice`: either a decoded
payload or a caught error. -/
inductive FetchResult where
  | success (payload : PriceData)
  | failure (err : String)
deriving Repr, DecidableEq

/-- World of one price Poller: whether the component is still mounted
(React host state), whether the `setInterval` timer is scheduled, how many
`fetchPrice` invocations are awaiting their response, and the component
state. -/
structure PollerWorld where
  mounted : Bool
  timerActive : Bool
  inflight : ℕ
  st : TickerState
deriving Repr, DecidableEq

/-- On mount the effect body runs: one immediate `fetchPrice()` (now
in flight) and `setInterval(fetchPrice, 2000)`. -/
def PollerWorld.start : PollerWorld :=
  { mounted := true, timerActive := true, inflight := 1, st := TickerState.init }

/-- Events of the Poller world: a scheduled interval tick fires (starting a
fetch), an in-flight fetch resolves, or the view is deactivated (React runs
the effect cleanup `clearInterval(interval)` and unmounts the component). -/
inductive PollerEvent where
  | tick
  | complete (r : FetchResult)
  | unmount
deriving Repr, DecidableEq

/-- React host semantics: the `useState` setters of a component that has
unmounted are no-ops — the update is discarded, never applied to any
rendered state. -/
def applyIfMounted (w : PollerWorld) (f : TickerState → TickerState) : TickerState :=
  if w.mounted then f w.st else w.st

/-- One step of the Poller world.  `none` means the event is not enabled:
a cancelled timer never ticks, a completion needs an in-flight fetch, and
unmounting happens once. -/
def step (w : PollerWorld) : PollerEvent → Option PollerWorld
  | PollerEvent.tick =>
      if w.timerActive then some { w with inflight := w.inflight + 1 } else none
  | PollerEvent.complete r =>
      if w.inflight = 0 then none
      else some
        { w with
          inflight := w.inflight - 1
          st := applyIfMounted w fun s =>
            match r with
            | FetchResult.success p => fetchPriceSuccess s p
            | FetchResult.failure e => fetchPriceFailure s e }
  | PollerEvent.unmount =>
      if w.mounted then some { w with mounted := false, timerActive := false } else none

/-- Run a list of events; events that are not enabled do nothing. -/
def runEvents (w : PollerWorld) : List PollerEvent → PollerWorld
  | [] => w
  | e :: es =>
      match step w e with
      | some w2 => runEvents w2 es
      | none => runEvents w es

/-! ### Helper lemmas and concrete sample data -/

/-- A sample payload with a given price; only the `price` field matters for
delta logic. -/
def pdOf (p : ℚ) : PriceData :=
  { symbol := "BTC/USDT", price := p, bid := 0, ask := 0, high := 0, low := 0,
    volume := 0, timestamp := 0 }

theorem runSuccesses_append (s : TickerState) (xs ys : List PriceData) :
    runSuccesses s (xs ++ ys) = runSuccesses (runSuccesses s xs) ys := by
  induction xs generalizing s with
  | nil => rfl
  | cons x xs ih => simp [runSuccesses, ih]

/-- Evaluation rule for `toFixed2` on a non-negative input whose count of
hundredths is pinned between `n` and `n + 1`. -/
theorem toFixed2_eval (x : ℚ) (n : ℕ) (hx : ¬ x < 0)
    (h1 : (n : ℚ) ≤ |x| * 100 + 1/2) (h2 : |x| * 100 + 1/2 < n + 1) :
    toFixed2 x = toString (n / 100) ++ "." ++ pad2 (n % 100) := by
  have hfl : ⌊|x| * 100 + 1/2⌋ = (n : ℤ) := by
    rw [Int.floor_eq_iff]
    exact ⟨by exact_mod_cast h1, by push_cast; exact h2⟩
  rw [toFixed2, if_neg hx, hfl, Int.toNat_natCast, String.empty_append]

/-- A step taken while unmounted never touches the component state and never
remounts. -/
theorem step_unmounted (w w2 : PollerWorld) (e : PollerEvent)
    (hm : w.mounted = false) (h : step w e = some w2) :
    w2.st = w.st ∧ w2.mounted = false := by
  cases e with
  | tick =>
      simp only [step] at h
      split at h
      · cases h
        exact ⟨rfl, hm⟩
      · exact Option.noConfusion h
  | complete r =>
      simp only [step] at h
      split at h
      · exact Option.noConfusion h
      · cases h
        exact ⟨by simp [applyIfMounted, hm], hm⟩
  | unmount =>
      simp [step, hm] at h

/-- No run of events mutates the component state of an unmounted Poller. -/
theorem runEvents_unmounted (w : PollerWorld) (es : List PollerEvent)
    (hm : w.mounted = false) : (runEvents w es).st = w.st := by
  induction es generalizing w with
  | nil => rfl
  | cons e es ih =>
      unfold runEvents
      cases hstep : step w e with
      | none => exact ih w hm
      | some w2 =>
          obtain ⟨hst, hm2⟩ := step_unmounted w w2 e hm hstep
          rw [ih w2 hm2, hst]

/-- Once the `loading` flag is false, no step sets it back to true. -/
theorem step_loading (w w2 : PollerWorld) (e : PollerEvent)
    (hl : w.st.loading = false) (h : step w e = some w2) :
    w2.st.loading = false := by
  cases e with
  | tick =>
      simp only [step] at h
      split at h
      · cases h
        exact hl
      · exact Option.noConfusion h
  | complete r =>
      simp only [step] at h
      split at h
      · exact Option.noConfusion h
      · cases h
        show (applyIfMounted w _).loading = false
        unfold applyIfMounted
        split
        · cases r with
          | success p => rfl
          | failure e2 => rfl
        · exact hl
  | unmount =>
      simp only [step] at h
      split at h
      · cases h
        exact hl
      · exact Option.noConfusion h

/-- Once the `loading` flag is false it stays false across any event run. -/
theorem runEvents_loading (w : PollerWorld) (es : List PollerEvent)
    (hl : w.st.loading = false) : (runEvents w es).st.loading = false := by
  induction es generalizing w with
  | nil => exact hl
  | cons e es ih =>
      unfold runEvents
      cases hstep : step w e with
      | none => exact ih w hl
      | some w2 => exact ih w2 (step_loading w w2 e hl hstep)

theorem enumFrom_map_snd {α : Type} (n : ℕ) (l : List α) :
    (l.enumFrom n).map Prod.snd = l := by
  induction l generalizing n with
  | nil => rfl
  | cons a l ih => simp [List.enumFrom, ih]

theorem mapIdx_map_snd {α β : Type} (g : ℕ → β) (l : List α) :
    (l.mapIdx fun i a => (g i, a)).map Prod.snd = l := by
  simp only [List.mapIdx_eq_enum_map, List.map_map]
  have hc : (Prod.snd ∘ Function.uncurry fun i a => ((g i, a) : β × α)) = Prod.snd := rfl
  rw [hc]
  exact enumFrom_map_snd 0 l

/-! ### Claim theorems -/

/-- C1 counterexample: after a successful fetch whose payload has price `0`,
the next successful fetch stores `previousPrice = none`, not the prior
current price `0` — `priceData?.price || null` coalesces the falsy number
`0` to `null`.  So "previous after fetch N equals current after fetch N−1"
fails at N = 2 for the payload sequence `[price 0, price 123]`. -/
theorem prev_drops_zero_current :
    (runSuccesses TickerState.init [pdOf 0]).priceData = some (pdOf 0)
    ∧ (runSuccesses TickerState.init [pdOf 0, pdOf 123]).previousPrice
        ≠ some (pdOf 0).price := by
  exact ⟨rfl, by decide⟩

/-- C1 amended: a successful fetch sets `current` to the new payload and
clears `error`; and `previous` after fetch N equals the current price after
fetch N−1 provided that price is nonzero (a zero price is coalesced to
absent by `|| null`). -/
theorem successful_fetch_chain (s : TickerState) (rs : List PriceData)
    (r r2 : PriceData) (h : r.price ≠ 0) :
    (runSuccesses s (rs ++ [r])).priceData = some r
    ∧ (runSuccesses s (rs ++ [r])).error = none
    ∧ (runSuccesses s (rs ++ [r, r2])).previousPrice = some r.price
    ∧ (runSuccesses s (rs ++ [r, r2])).priceData = some r2 := by
  have e1 : runSuccesses s (rs ++ [r]) = fetchPriceSuccess (runSuccesses s rs) r := by
    rw [runSuccesses_append]
    rfl
  have e2 : runSuccesses s (rs ++ [r, r2])
      = fetchPriceSuccess (fetchPriceSuccess (runSuccesses s rs) r) r2 := by
    rw [runSuccesses_append]
    rfl
  refine ⟨by rw [e1]; rfl, by rw [e1]; rfl, ?_, by rw [e2]; rfl⟩
  rw [e2]
  show priceOrNull (some r) = some r.price
  simp [priceOrNull, h]

/-- C1 witness: the two-fetch chain `[price 123, price 124]` from the
initial state ends with `previous = 123`, `current = price 124`, no error. -/
theorem successful_fetch_chain_witness :
    (runSuccesses TickerState.init ([] ++ [pdOf 123])).priceData = some (pdOf 123)
    ∧ (runSuccesses TickerState.init ([] ++ [pdOf 123])).error = none
    ∧ (runSuccesses TickerState.init ([] ++ [pdOf 123, pdOf 124])).previousPrice
        = some (pdOf 123).price
    ∧ (runSuccesses TickerState.init ([] ++ [pdOf 123, pdOf 124])).priceData
        = some (pdOf 124) :=
  successful_fetch_chain TickerState.init [] (pdOf 123) (pdOf 124) (by decide)

/-- C2 counterexample: the failure branch also mutates the `loading` flag —
from the initial state (`loading = true`) a failed fetch flips it to
`false`, so the failure branch does not set "only the error field". -/
theorem failure_also_clears_loading :
    (fetchPriceFailure TickerState.init "ECONNREFUSED").loading
      ≠ TickerState.init.loading := by
  decide

/-- C2 amended: a failed fetch leaves `current` and `previous` (and the
leaderboard's `traders`) unchanged and touches only the `error` field and
the `loading` flag: `error` is set to the fixed message and `loading` to
`false`. -/
theorem failure_frame (s : TickerState) (t : LeaderboardState) (e : String) :
    (fetchPriceFailure s e).priceData = s.priceData
    ∧ (fetchPriceFailure s e).previousPrice = s.previousPrice
    ∧ (fetchPriceFailure s e).error = some "Failed to fetch price data"
    ∧ (fetchPriceFailure s e).loading = false
    ∧ (fetchLeaderboardFailure t e).traders = t.traders
    ∧ (fetchLeaderboardFailure t e).error = some "Failed to fetch leaderboard"
    ∧ (fetchLeaderboardFailure t e).loading = false :=
  ⟨rfl, rfl, rfl, rfl, rfl, rfl, rfl⟩

/-- C3: with a present nonzero previous price the delta is
`current − previous`, the percentage string is `toFixed2` of
`(current − previous) / previous × 100`, the sign flag is positive exactly
when the delta is non-negative; at previous 50000 and current 51000 the
percentage string is "2.00" with positive sign. -/
theorem delta_calculator_correct (d : PriceData) (p : ℚ) (hp : p ≠ 0) :
    priceChange (some d) (some p) = d.price - p
    ∧ priceChangePercent (some d) (some p) = toFixed2 ((d.price - p) / p * 100)
    ∧ (isPositive (some d) (some p) = true ↔ 0 ≤ d.price - p)
    ∧ (d.price = 51000 → p = 50000 →
        priceChangePercent (some d) (some p) = "2.00"
        ∧ isPositive (some d) (some p) = true) := by
  refine ⟨by simp [priceChange, hp], by simp [priceChangePercent, hp], ?_, ?_⟩
  · simp [isPositive, priceChange, hp]
  · intro h51 h50
    subst h50
    constructor
    · have harg : (d.price - 50000) / 50000 * 100 = 2 := by
        rw [h51]
        norm_num
      simp only [priceChangePercent]
      rw [if_neg hp, harg,
        toFixed2_eval 2 200 (by norm_num) (by norm_num) (by norm_num)]
      rfl
    · simp [isPositive, priceChange, hp, h51]
      norm_num

/-- C3 witness at previous 50000, current 51000. -/
theorem delta_calculator_correct_witness :
    priceChangePercent (some (pdOf 51000)) (some 50000) = "2.00"
    ∧ isPositive (some (pdOf 51000)) (some 50000) = true :=
  (delta_calculator_correct (pdOf 51000) 50000 (by norm_num)).2.2.2 rfl rfl

/-- C4: with `previousPrice` absent the delta is `0`, the percentage string
is "0.00", the sign flag is positive, and the delta indicator block is not
rendered (its JSX guard `previousPrice !== null` fails). -/
theorem absent_previous_no_delta (pd : Option PriceData) (s : TickerState)
    (h : s.previousPrice = none) :
    priceChange pd none = 0
    ∧ priceChangePercent pd none = "0.00"
    ∧ isPositive pd none = true
    ∧ showsDeltaIndicator s = false := by
  refine ⟨?_, ?_, ?_, ?_⟩
  · cases pd <;> rfl
  · cases pd <;> rfl
  · cases pd <;> simp [isPositive, priceChange]
  · simp [showsDeltaIndicator, h]

/-- C4 witness at the initial state. -/
theorem absent_previous_no_delta_witness :
    priceChange (some (pdOf 42)) none = 0
    ∧ priceChangePercent (some (pdOf 42)) none = "0.00"
    ∧ isPositive (some (pdOf 42)) none = true
    ∧ showsDeltaIndicator TickerState.init = false :=
  absent_previous_no_delta (some (pdOf 42)) TickerState.init rfl

/-- C5: `getRankIcon` is a pure function of the zero-based index: indices 0,
1, 2 give three pairwise-distinct badges, every index ≥ 3 gives the text
badge `#` followed by `index + 1`, and index 3 in particular gives "#4". -/
theorem rank_badges (i : ℕ) (h : 3 ≤ i) :
    getRankIcon 0 ≠ getRankIcon 1
    ∧ getRankIcon 0 ≠ getRankIcon 2
    ∧ getRankIcon 1 ≠ getRankIcon 2
    ∧ getRankIcon i = RankBadge.text ("#" ++ toString (i + 1))
    ∧ getRankIcon 3 = RankBadge.text "#4" := by
  refine ⟨by decide, by decide, by decide, ?_, by decide⟩
  obtain ⟨n, rfl⟩ : ∃ n, i = n + 3 := ⟨i - 3, by omega⟩
  rfl

/-- C5 witness at index 3. -/
theorem rank_badges_witness :
    getRankIcon 0 ≠ getRankIcon 1
    ∧ getRankIcon 0 ≠ getRankIcon 2
    ∧ getRankIcon 1 ≠ getRankIcon 2
    ∧ getRankIcon 3 = RankBadge.text ("#" ++ toString (3 + 1))
    ∧ getRankIcon 3 = RankBadge.text "#4" :=
  rank_badges 3 (by decide)

/-- C6: after a successful leaderboard fetch the stored list is exactly the
server's `top_traders`, and the rendered rows keep that order trader by
trader — no client-side re-sorting; in particular three traders arrive in
server order A, B, C whatever their roi or portfolio values. -/
theorem server_order_preserved (s : LeaderboardState) (resp : LeaderboardResponse) :
    (fetchLeaderboardSuccess s resp).traders = resp.top_traders
    ∧ (renderedRows (fetchLeaderboardSuccess s resp)).map Prod.snd = resp.top_traders
    ∧ ∀ A B C : Trader,
        renderedRows (fetchLeaderboardSuccess s { top_traders := [A, B, C], count := 3 })
          = [(getRankIcon 0, A), (getRankIcon 1, B), (getRankIcon 2, C)] := by
  refine ⟨rfl, ?_, ?_⟩
  · show (resp.top_traders.mapIdx fun i t => (getRankIcon i, t)).map Prod.snd
      = resp.top_traders
    exact mapIdx_map_snd getRankIcon resp.top_traders
  · intro A B C
    rfl

/-- World right after the effect cleanup ran and the component unmounted. -/
def afterUnmount : PollerWorld :=
  { PollerWorld.start with mounted := false, timerActive := false }

/-- C7: deactivating the Poller (the effect cleanup `clearInterval` plus the
React unmount) cancels the scheduled timer — so a tick scheduled before
deactivation never fires — and afterwards no run of events (remaining ticks,
completions of requests that were in flight at deactivation) changes the
component state: a late `useState` setter on an unmounted component is
discarded by React. -/
theorem deactivation_halts_mutation (w w2 : PollerWorld) (es : List PollerEvent)
    (h : step w PollerEvent.unmount = some w2) :
    w2.timerActive = false ∧ w2.mounted = false ∧ (runEvents w2 es).st = w2.st := by
  simp only [step] at h
  split at h
  · cases h
    exact ⟨rfl, rfl, runEvents_unmounted _ es rfl⟩
  · exact Option.noConfusion h

/-- C7 witness: unmount right after activation, then let the in-flight
first fetch complete — the state stays untouched. -/
theorem deactivation_halts_mutation_witness :
    afterUnmount.timerActive = false ∧ afterUnmount.mounted = false
    ∧ (runEvents afterUnmount
        [PollerEvent.tick, PollerEvent.complete (FetchResult.success (pdOf 5))]).st
      = afterUnmount.st :=
  deactivation_halts_mutation PollerWorld.start afterUnmount
    [PollerEvent.tick, PollerEvent.complete (FetchResult.success (pdOf 5))]
    (by decide)

/-- C8 counterexample: after the first successful fetch resolves, the next
scheduled tick starts a new fetch (one request is in flight) while the
`loading` flag is still `false` — neither `fetchPrice` nor the interval
callback ever calls `setLoading(true)` again, so the Poller does not
re-enter the loading state before resolving. -/
theorem no_loading_reentry :
    0 < (runEvents PollerWorld.start
          [PollerEvent.complete (FetchResult.success (pdOf 5)),
           PollerEvent.tick]).inflight
    ∧ (runEvents PollerWorld.start
          [PollerEvent.complete (FetchResult.success (pdOf 5)),
           PollerEvent.tick]).st.loading = false := by
  decide

/-- C8 amended: the Poller starts with `loading = true`; the first completed
fetch (success or failure) sets `loading = false`; no later event ever sets
it back to `true` — once false, `loading` stays false for the rest of the
run — and the cancelled state (after unmount) permits no further component
state changes. -/
theorem loading_entered_once (w : PollerWorld) (es : List PollerEvent)
    (s : TickerState) (r : PriceData) (e : String)
    (h : w.st.loading = false) :
    PollerWorld.start.st.loading = true
    ∧ (fetchPriceSuccess s r).loading = false
    ∧ (fetchPriceFailure s e).loading = false
    ∧ (runEvents w es).st.loading = false
    ∧ (w.mounted = false → (runEvents w es).st = w.st) :=
  ⟨rfl, rfl, rfl, runEvents_loading w es h,
    fun hm => runEvents_unmounted w es hm⟩

/-- World after the immediate first fetch succeeded. -/
def afterFirstSuccess : PollerWorld :=
  runEvents PollerWorld.start [PollerEvent.complete (FetchResult.success (pdOf 5))]

/-- C8 witness: from the post-first-success world, a tick leaves `loading`
false. -/
theorem loading_entered_once_witness :
    PollerWorld.start.st.loading = true
    ∧ (fetchPriceSuccess TickerState.init (pdOf 7)).loading = false
    ∧ (fetchPriceFailure TickerState.init "ECONNREFUSED").loading = false
    ∧ (runEvents afterFirstSuccess [PollerEvent.tick]).st.loading = false
    ∧ (afterFirstSuccess.mounted = false →
        (runEvents afterFirstSuccess [PollerEvent.tick]).st = afterFirstSuccess.st) :=
  loading_entered_once afterFirstSuccess [PollerEvent.tick]
    TickerState.init (pdOf 7) "ECONNREFUSED" (by decide)

/-- C9: when the held payload has price `0`, a successful fetch stores
`previousPrice = none` (not `some 0`), because `priceData?.price || null`
coalesces the falsy number `0`; the delta indicator is therefore suppressed
on the next render even though a prior successful fetch existed. -/
theorem zero_price_suppresses_delta (s : TickerState) (d r : PriceData)
    (hd : s.priceData = some d) (h0 : d.price = 0) :
    (fetchPriceSuccess s r).previousPrice = none
    ∧ showsDeltaIndicator (fetchPriceSuccess s r) = false := by
  have hp : priceOrNull s.priceData = none := by
    rw [hd]
    simp [priceOrNull, h0]
  refine ⟨hp, ?_⟩
  simp [showsDeltaIndicator, fetchPriceSuccess, hp]

/-- C9 witness: current price `0`, new payload price `123`. -/
theorem zero_price_suppresses_delta_witness :
    (fetchPriceSuccess
        { priceData := some (pdOf 0), previousPrice := none,
          loading := false, error := none } (pdOf 123)).previousPrice = none
    ∧ showsDeltaIndicator (fetchPriceSuccess
        { priceData := some (pdOf 0), previousPrice := none,
          loading := false, error := none } (pdOf 123)) = false :=
  zero_price_suppresses_delta _ (pdOf 0) (pdOf 123) rfl rfl

/-- C10: the error message published on a failed fetch is a fixed constant
per Poller — "Failed to fetch price data" for the price Poller and
"Failed to fetch leaderboard" for the leaderboard Poller — identical
whatever the caught error was. -/
theorem error_message_constant (s s2 : TickerState) (t t2 : LeaderboardState)
    (e e2 : String) :
    (fetchPriceFailure s e).error = some "Failed to fetch price data"
    ∧ (fetchPriceFailure s e).error = (fetchPriceFailure s2 e2).error
    ∧ (fetchLeaderboardFailure t e).error = some "Failed to fetch leaderboard"
    ∧ (fetchLeaderboardFailure t e).error = (fetchLeaderboardFailure t2 e2).error :=
  ⟨rfl, rfl, rfl, rfl⟩
